import Mathlib

/-!
Verification of the guild-manager membership reconciliation engine
(`guild_manager.py`).

The development shallowly embeds the parts of the program the claims are
about:

* the raw data model (`MemberRec`, `ProfileData`) mirroring the JSON
  records consumed by `GW2MISTS_GUILD`;
* the pure set derivations of `GW2MISTS_GUILD` (`members`,
  `unregistered_members`, `registered_members`, `wrongteam_members`,
  `currentmatch_members`, `inactive_members`, `_sorted_members`,
  `top_week`);
* the memoising property layer (`GW2MistsGuild` state, one `Option`
  cache slot per property plus a fetch counter, as in `__init__`);
* the fallible batched member-profile fetch (`amember_profiles` via
  `asyncio.gather` over a `raise_for_status=True` session);
* the class-level header dictionaries of `GW2_API_KEY` / `GW2_GUILD`
  (shared mutable state, modelled by a `World` holding the two class
  dicts) and `GW2_GUILD.__init__`'s permission check;
* the reporting entry point `report_guild_gw2mists`, including its
  roster-visibility early return and the alliance recursion.
-/

/-- A roster entry of the gw2mists guild profile: the fields of
`profile["member"]` elements that the code reads (`name`, `registered`,
`team_id`). -/
structure MemberRec where
  name : String
  registered : Nat
  team_id : Int
deriving DecidableEq, Repr

/-- The gw2mists guild profile JSON, restricted to the keys the code
reads: `member`, `team_id`, `tag`, `member_count`, `display_roster`,
`is_alliance`, and `alliance.guilds` (flattened to the sub-guild
names, which is the only field the code uses of it). -/
structure ProfileData where
  member : List MemberRec
  team_id : Int
  tag : String
  member_count : Nat
  display_roster : Bool
  is_alliance : Bool
  alliance_guilds : List String
deriving DecidableEq, Repr

/-- `INACTIVE_PLAYER_KILLS` from the source. -/
def INACTIVE_PLAYER_KILLS : Int := 1000

/-- `TOP_STATS_MEMBERS` from the source. -/
def TOP_STATS_MEMBERS : Nat := 10

/-- `MEMBER_STATS_LIST` from the source. -/
def MEMBER_STATS_LIST : List String :=
  ["kills", "captured_targets", "defended_targets", "killed_dolyaks"]

namespace GW2MISTS_GUILD

/-- `GW2MISTS_GUILD.members`: the names of all roster entries, as a set
(`frozenset(x["name"] for x in profile["member"])`). -/
def membersOf (p : ProfileData) : Finset String :=
  (p.member.map (fun m => m.name)).toFinset

/-- `GW2MISTS_GUILD.unregistered_members`: names of roster entries with
`x["registered"] == 0`. -/
def unregisteredOf (p : ProfileData) : Finset String :=
  ((p.member.filter (fun m => m.registered == 0)).map (fun m => m.name)).toFinset

/-- `GW2MISTS_GUILD.registered_members`: names of roster entries with
`x["registered"] == 1`. -/
def registeredOf (p : ProfileData) : Finset String :=
  ((p.member.filter (fun m => m.registered == 1)).map (fun m => m.name)).toFinset

/-- `GW2MISTS_GUILD.wrongteam_members`: names of roster entries whose
`team_id` differs from the guild profile's `team_id`, minus the
unregistered members. -/
def wrongteamOf (p : ProfileData) : Finset String :=
  ((p.member.filter (fun m => m.team_id != p.team_id)).map (fun m => m.name)).toFinset
    \ unregisteredOf p

/-- `GW2MISTS_GUILD.currentmatch_members`: registered members minus
wrong-team members. -/
def currentmatchOf (p : ProfileData) : Finset String :=
  registeredOf p \ wrongteamOf p

/-- `GW2MISTS_GUILD._sorted_members`: pair each member-profile entry of
the (insertion-ordered) name-keyed map with its value for statistic
`stat`, sort descending by that value with Python's stable `sorted`
(`reverse=True`), keep the first `TOP_STATS_MEMBERS` entries. -/
def sorted_members (profiles : List (String × (String → Int))) (stat : String) :
    List (String × Int) :=
  ((profiles.map (fun np => (np.1, np.2 stat))).mergeSort
      (fun a b => b.2 ≤ a.2)).take TOP_STATS_MEMBERS

/-- `GW2MISTS_GUILD.inactive_members` as a pure derivation over the
member-profiles map: entries whose `stats["kills"]` is strictly below
`INACTIVE_PLAYER_KILLS`, each keeping its kill count. -/
def inactiveOf (profiles : List (String × (String → Int))) : List (String × Int) :=
  (profiles.filter (fun np => np.2 "kills" < INACTIVE_PLAYER_KILLS)).map
    (fun np => (np.1, np.2 "kills"))

/-- `GW2MISTS_GUILD.top_week` as a pure derivation: one
`_sorted_members` leaderboard per statistic in `MEMBER_STATS_LIST`. -/
def topWeekOf (profiles : List (String × (String → Int))) :
    List (String × List (String × Int)) :=
  MEMBER_STATS_LIST.map (fun stat => (stat, sorted_members profiles stat))

end GW2MISTS_GUILD

open GW2MISTS_GUILD

/-- The §8 scenario profile of the spec: members A(registered, team 7),
B(unregistered, team 9), C(registered, team 9); guild team id 7. -/
def scenarioProfile : ProfileData :=
  { member :=
      [ { name := "A", registered := 1, team_id := 7 }
      , { name := "B", registered := 0, team_id := 9 }
      , { name := "C", registered := 1, team_id := 9 } ]
  , team_id := 7
  , tag := "TAG"
  , member_count := 3
  , display_roster := true
  , is_alliance := false
  , alliance_guilds := [] }

/-- An instance of `GW2MISTS_GUILD`: the constructor arguments, the
network (modelled as functions of the fetch sequence number, so a
repeated fetch may observe a different response), the number of network
fetches issued so far, and one `Option` cache slot per lazily computed
property, exactly as `__init__` initialises them to `None`. -/
structure GW2MistsGuild where
  guild_name : String
  net_profile : Nat → ProfileData
  net_member_stats : Nat → String → String → Int
  fetchCount : Nat
  c_profile : Option ProfileData
  c_unregistered : Option (Finset String)
  c_team_id : Option Int
  c_wrongteam : Option (Finset String)
  c_registered : Option (Finset String)
  c_currentmatch : Option (Finset String)
  c_members_profiles : Option (List (String × (String → Int)))
  c_inactive : Option (List (String × Int))
  c_members : Option (Finset String)
  c_top_week : Option (List (String × List (String × Int)))

namespace GW2MistsGuild

/-- `GW2MISTS_GUILD.__init__`: store the guild name, set every cache
slot to `None`. -/
def mk_guild (name : String) (netp : Nat → ProfileData)
    (netm : Nat → String → String → Int) : GW2MistsGuild :=
  ⟨name, netp, netm, 0, none, none, none, none, none, none, none, none, none, none⟩

/-- The `profile` property: fetch the guild profile on first access
(one network round trip), cache it, and afterwards return the cached
copy. -/
def profile (g : GW2MistsGuild) : ProfileData × GW2MistsGuild :=
  match g.c_profile with
  | some p => (p, g)
  | none =>
    let p := g.net_profile g.fetchCount
    (p, { g with fetchCount := g.fetchCount + 1, c_profile := some p })

/-- The `members` property. -/
def members (g : GW2MistsGuild) : Finset String × GW2MistsGuild :=
  match g.c_members with
  | some s => (s, g)
  | none =>
    let pg := profile g
    let s := GW2MISTS_GUILD.membersOf pg.1
    (s, { pg.2 with c_members := some s })

/-- The `unregistered_members` property. -/
def unregistered_members (g : GW2MistsGuild) : Finset String × GW2MistsGuild :=
  match g.c_unregistered with
  | some s => (s, g)
  | none =>
    let pg := profile g
    let s := GW2MISTS_GUILD.unregisteredOf pg.1
    (s, { pg.2 with c_unregistered := some s })

/-- The `registered_members` property. -/
def registered_members (g : GW2MistsGuild) : Finset String × GW2MistsGuild :=
  match g.c_registered with
  | some s => (s, g)
  | none =>
    let pg := profile g
    let s := GW2MISTS_GUILD.registeredOf pg.1
    (s, { pg.2 with c_registered := some s })

/-- The `team_id` property (reads `profile["team_id"]`). -/
def team_id (g : GW2MistsGuild) : Int × GW2MistsGuild :=
  match g.c_team_id with
  | some t => (t, g)
  | none =>
    let pg := profile g
    let t := pg.1.team_id
    (t, { pg.2 with c_team_id := some t })

/-- The `wrongteam_members` property: reads the cached profile, the
`team_id` property and the `unregistered_members` property, then takes
the names of differing-team entries minus the unregistered set. -/
def wrongteam_members (g : GW2MistsGuild) : Finset String × GW2MistsGuild :=
  match g.c_wrongteam with
  | some s => (s, g)
  | none =>
    let pg := profile g
    let tg := team_id pg.2
    let ug := unregistered_members tg.2
    let s := ((pg.1.member.filter (fun m => m.team_id != tg.1)).map
        (fun m => m.name)).toFinset \ ug.1
    (s, { ug.2 with c_wrongteam := some s })

/-- The `currentmatch_members` property: `registered_members`
minus `wrongteam_members`. -/
def currentmatch_members (g : GW2MistsGuild) : Finset String × GW2MistsGuild :=
  match g.c_currentmatch with
  | some s => (s, g)
  | none =>
    let rg := registered_members g
    let wg := wrongteam_members rg.2
    let s := rg.1 \ wg.1
    (s, { wg.2 with c_currentmatch := some s })

/-- The `members_profiles` property: one batched fan-out fetch of each
registered member's profile (a second network operation), producing the
name-keyed map in iteration order of the registered set. -/
def members_profiles (g : GW2MistsGuild) :
    List (String × (String → Int)) × GW2MistsGuild :=
  match g.c_members_profiles with
  | some m => (m, g)
  | none =>
    let rg := registered_members g
    let names := Finset.sort (· ≤ ·) rg.1
    let m := names.map (fun n => (n, rg.2.net_member_stats rg.2.fetchCount n))
    (m, { rg.2 with
            fetchCount := rg.2.fetchCount + 1
            c_members_profiles := some m })

/-- The `inactive_members` property. -/
def inactive_members (g : GW2MistsGuild) : List (String × Int) × GW2MistsGuild :=
  match g.c_inactive with
  | some m => (m, g)
  | none =>
    let mg := members_profiles g
    let m := GW2MISTS_GUILD.inactiveOf mg.1
    (m, { mg.2 with c_inactive := some m })

/-- The `top_week` property. -/
def top_week (g : GW2MistsGuild) :
    List (String × List (String × Int)) × GW2MistsGuild :=
  match g.c_top_week with
  | some m => (m, g)
  | none =>
    let mg := members_profiles g
    let m := GW2MISTS_GUILD.topWeekOf mg.1
    (m, { mg.2 with c_top_week := some m })

/-- `GW2MISTS_GUILD.amember_profile` over a fallible transport (the
session is created with `raise_for_status=True`, so a non-2xx response
surfaces as an exception): fetch one member profile and attach the
member's name to it. -/
def amember_profile (fetch : String → Except String (String → Int))
    (name : String) : Except String (String × (String → Int)) :=
  (fetch name).map (fun stats => (name, stats))

/-- `GW2MISTS_GUILD.amember_profiles`: `asyncio.gather` over one fetch
task per name. If every task succeeds the whole list of profiles is
returned; the first failing task makes the whole gather fail, and no
partial list is ever produced. -/
def amember_profiles (fetch : String → Except String (String → Int)) :
    List String → Except String (List (String × (String → Int)))
  | [] => .ok []
  | n :: ns =>
    match amember_profile fetch n with
    | .error e => .error e
    | .ok p =>
      match amember_profiles fetch ns with
      | .error e => .error e
      | .ok ps => .ok (p :: ps)

/-- The `members_profiles` property body over the fallible transport:
with the cache slot still `None`, run the batched fetch; only a fully
successful batch is assigned to `self._members_profiles` (an exception
escaping `asyncio.run` skips the assignment, leaving the slot `None`).
Takes the already-computed registered-member name list and the current
cache slot, returns the outcome and the new cache slot. -/
def members_profiles_try (fetch : String → Except String (String → Int))
    (names : List String)
    (cache : Option (List (String × (String → Int)))) :
    Except String (List (String × (String → Int)))
      × Option (List (String × (String → Int))) :=
  match cache with
  | some m => (.ok m, some m)
  | none =>
    match amember_profiles fetch names with
    | .error e => (.error e, none)
    | .ok ps => (.ok ps, some ps)

end GW2MistsGuild

/-- The injected-failure transport of the spec's §8 fan-out scenario:
position 2 of 4 fails, the rest succeed. -/
def injectedFetch : String → Except String (String → Int) :=
  fun s => if s = "B2" then Except.error "injected failure"
    else Except.ok (fun _ => (0 : Int))

/-- Python dict assignment `d[k] = v` on an insertion-ordered
association list: replace the value in place if the key exists,
otherwise append the new pair. -/
def setHeader : List (String × String) → String → String → List (String × String)
  | [], k, v => [(k, v)]
  | kv :: rest, k, v =>
    if kv.1 = k then (k, v) :: rest else kv :: setHeader rest k v

/-- Python dict lookup `d[k]` (as an `Option`). -/
def lookupHeader (hs : List (String × String)) (k : String) : Option String :=
  (hs.find? (fun kv => kv.1 = k)).map (fun kv => kv.2)

/-- The process-wide mutable class attributes of the authoritative-API
classes: `GW2_API_KEY.API_HEADERS` and `GW2_GUILD.API_HEADERS` are each
a single dict stored on the class and therefore shared by every
instance of that class; `self.API_HEADERS[...] = ...` in `__init__`
mutates that shared dict. -/
structure World where
  key_headers : List (String × String)
  gw2_headers : List (String × String)
deriving DecidableEq, Repr

/-- The class dicts as written in the source: both start as
`{"accept": "application/json"}`. -/
def initialWorld : World :=
  ⟨[("accept", "application/json")], [("accept", "application/json")]⟩

/-- One entry of the authoritative `/v2/guild/:id/members` roster:
the fields the code reads (`name`, `wvw_member`, `rank`). -/
structure GW2Member where
  name : String
  wvw_member : Bool
  rank : String
deriving DecidableEq, Repr

/-- The per-instance attributes `GW2_GUILD.__init__` assigns on `self`:
the guild name and id, and the five cache slots initialised to `None`.
The header dict is deliberately absent here: the instance uses the
class-level dict of the `World`. -/
structure GW2GuildInst where
  name : String
  gid : String
  c_profile : Option (List GW2Member)
  c_info : Option String
  c_ranks : Option (List String)
  c_members : Option (Finset String)
  c_wvw_members : Option (Finset String)
deriving DecidableEq

/-- Python's `sep.join(parts)`. -/
def joinSep (sep : String) : List String → String
  | [] => ""
  | [x] => x
  | x :: xs => x ++ sep ++ joinSep sep xs

/-- The `ValueError` message raised by `GW2_GUILD.__init__` when the
token lacks the guilds permission, exactly as the f-string builds it. -/
def missingGuildsMsg (name : String) (perms : List String) : String :=
  "the api key provided for guild '" ++ name ++
    "' doesn't have 'guilds' permission among " ++ joinSep ", " perms

/-- `GW2_GUILD.__init__`: store name and gid, construct a `GW2_API_KEY`
(which mutates the key class's shared header dict), resolve the token's
permissions with one `GET /v2/tokeninfo` round trip, raise `ValueError`
if the guilds scope is missing, otherwise write the bearer token into
the guild class's shared header dict and initialise the cache slots to
`None`. Returns the constructed instance (or the error), the mutated
`World`, and the list of request paths issued. -/
def GW2_GUILD_init (name gid api_key : String)
    (tokenPerms : String → List String) (w : World) :
    Except String GW2GuildInst × World × List String :=
  let w1 : World := { w with
    key_headers := setHeader w.key_headers "authorization"
      ("Bearer " ++ api_key) }
  let reqs := ["/v2/tokeninfo"]
  let perms := tokenPerms api_key
  if "guilds" ∈ perms then
    let w2 : World := { w1 with
      gw2_headers := setHeader w1.gw2_headers "authorization"
        ("Bearer " ++ api_key) }
    (Except.ok ⟨name, gid, none, none, none, none, none⟩, w2, reqs)
  else
    (Except.error (missingGuildsMsg name perms), w1, reqs)

/-- A token-introspection stub granting every constructed key the
guilds scope. -/
def allPermsFn : String → List String := fun _ => ["guilds"]

/-- The shared class dict after constructing the first guild object. -/
def cexWorld1 : World :=
  (GW2_GUILD_init "guild" "11" "KEY1" allPermsFn initialWorld).2.1

/-- The shared class dict after then constructing the second (alliance)
guild object. -/
def cexWorld2 : World :=
  (GW2_GUILD_init "alliance" "22" "KEY2" allPermsFn cexWorld1).2.1

/-- Summary of what one `report_guild_gw2mists` invocation reports for
one guild: either the roster-hidden warning-and-return, or the member
sets it reports. -/
structure SubReport where
  guild : String
  roster_hidden : Bool
  wrongteam : Finset String
  unregistered : Finset String
deriving DecidableEq

/-- The sequential `for guild in profile["alliance"]["guilds"]` loop of
`report_guild_gw2mists`: each sub-guild is reported in turn; the first
raised exception aborts the loop. -/
def reportLoop (f : String → Except String (List SubReport)) :
    List String → Except String (List SubReport)
  | [] => Except.ok []
  | g :: gs =>
    match f g with
    | Except.error e => Except.error e
    | Except.ok r =>
      match reportLoop f gs with
      | Except.error e => Except.error e
      | Except.ok rs => Except.ok (r ++ rs)

set_option linter.unusedVariables false in
/-- `report_guild_gw2mists`: fetch the guild profile; if
`display_roster` is false, log a warning and return (no member
derivation, no exception); otherwise report the member sets, and — only
when called with `alliance=True` — require `is_alliance` (raising
`ValueError` otherwise) and recurse over the sub-guild names with the
`alliance` parameter left at its `False` default. -/
def report_guild_gw2mists (lookup : String → ProfileData) (alliance : Bool)
    (guild_name : String) : Except String (List SubReport) :=
  let p := lookup guild_name
  if p.display_roster = false then
    Except.ok [⟨guild_name, true, ∅, ∅⟩]
  else
    if halliance : alliance = true then
      if p.is_alliance = true then
        match reportLoop (fun g => report_guild_gw2mists lookup false g)
            p.alliance_guilds with
        | Except.error e => Except.error e
        | Except.ok subs =>
          Except.ok
            (⟨guild_name, false, wrongteamOf p, unregisteredOf p⟩ :: subs)
      else Except.error (guild_name ++ " is not alliance guild")
    else
      Except.ok [⟨guild_name, false, wrongteamOf p, unregisteredOf p⟩]
termination_by (cond alliance 1 0)
decreasing_by simp [halliance]

/-- A cyclic pair of alliance profiles: guild A lists B as its only
sub-guild and B lists A, both flagged as alliances with visible
rosters. -/
def cycLookup : String → ProfileData :=
  fun s =>
    if s = "A"
      then ⟨[], 1, "A", 0, true, true, ["B"]⟩
      else ⟨[], 1, "B", 0, true, true, ["A"]⟩

/-- A fetched profile whose roster-visibility flag is false but which
still carries a member list. -/
def hiddenProfile : ProfileData :=
  ⟨[⟨"B", 0, 9⟩], 7, "TAG", 1, false, false, []⟩

/-- A `GW2MISTS_GUILD` instance whose guild-profile fetch returns the
roster-hidden profile. -/
def hiddenGuild : GW2MistsGuild :=
  GW2MistsGuild.mk_guild "G" (fun _ => hiddenProfile) (fun _ _ _ => 0)

/-- Claim C1: for every guild profile whose roster is well formed in the
sense of the spec's data model (member names unique within the profile,
registration flag either 0 or 1), the registered and unregistered member
sets are disjoint and their union is the full member set. -/
theorem registered_unregistered_partition (p : ProfileData)
    (hnd : (p.member.map (fun m => m.name)).Nodup)
    (hflag : ∀ m ∈ p.member, m.registered = 0 ∨ m.registered = 1) :
    registeredOf p ∪ unregisteredOf p = membersOf p ∧
      Disjoint (registeredOf p) (unregisteredOf p) := by
  constructor
  · ext n
    simp only [Finset.mem_union, registeredOf, unregisteredOf, membersOf,
      List.mem_toFinset, List.mem_map, List.mem_filter]
    constructor
    · rintro (⟨m, ⟨hm, _⟩, rfl⟩ | ⟨m, ⟨hm, _⟩, rfl⟩) <;> exact ⟨m, hm, rfl⟩
    · rintro ⟨m, hm, rfl⟩
      rcases hflag m hm with h0 | h1
      · exact Or.inr ⟨m, ⟨hm, by simp [h0]⟩, rfl⟩
      · exact Or.inl ⟨m, ⟨hm, by simp [h1]⟩, rfl⟩
  · rw [Finset.disjoint_left]
    intro n hr hu
    simp only [registeredOf, unregisteredOf, List.mem_toFinset, List.mem_map,
      List.mem_filter] at hr hu
    obtain ⟨m1, ⟨hm1, hm1r⟩, rfl⟩ := hr
    obtain ⟨m2, ⟨hm2, hm2r⟩, hname⟩ := hu
    have : m2 = m1 := List.inj_on_of_nodup_map hnd hm2 hm1 hname
    subst this
    simp at hm1r hm2r
    omega

/-- Witness for C1 at the spec's §8 scenario profile. -/
theorem registered_unregistered_partition_witness :
    (scenarioProfile.member.map (fun m => m.name)).Nodup ∧
      (∀ m ∈ scenarioProfile.member, m.registered = 0 ∨ m.registered = 1) ∧
      (registeredOf scenarioProfile ∪ unregisteredOf scenarioProfile
          = membersOf scenarioProfile ∧
        Disjoint (registeredOf scenarioProfile) (unregisteredOf scenarioProfile)) :=
  ⟨by decide, by decide,
    registered_unregistered_partition scenarioProfile (by decide) (by decide)⟩

/-- Claim C2: whenever every roster entry's registration flag is 0 or 1,
the wrong-team member set is contained in the registered member set: an
unregistered member with a differing team id never appears in it. -/
theorem wrongteam_subset_registered (p : ProfileData)
    (hflag : ∀ m ∈ p.member, m.registered = 0 ∨ m.registered = 1) :
    wrongteamOf p ⊆ registeredOf p := by
  intro n hn
  simp only [wrongteamOf, Finset.mem_sdiff, List.mem_toFinset, List.mem_map,
    List.mem_filter] at hn
  obtain ⟨⟨m, ⟨hm, _⟩, rfl⟩, hnotu⟩ := hn
  rcases hflag m hm with h0 | h1
  · exact absurd (by
      simp only [unregisteredOf, List.mem_toFinset, List.mem_map, List.mem_filter]
      exact ⟨m, ⟨hm, by simp [h0]⟩, rfl⟩) hnotu
  · simp only [registeredOf, List.mem_toFinset, List.mem_map, List.mem_filter]
    exact ⟨m, ⟨hm, by simp [h1]⟩, rfl⟩

/-- Witness for C2 at the spec's §8 scenario profile. -/
theorem wrongteam_subset_registered_witness :
    (∀ m ∈ scenarioProfile.member, m.registered = 0 ∨ m.registered = 1) ∧
      wrongteamOf scenarioProfile ⊆ registeredOf scenarioProfile :=
  ⟨by decide, wrongteam_subset_registered scenarioProfile (by decide)⟩

/-- Claim C3: for every guild profile, the current-match member set is
exactly the registered member set minus the wrong-team member set, and
membership in it is equivalent to being registered and not wrong-team. -/
theorem currentmatch_eq_registered_sdiff_wrongteam (p : ProfileData) :
    currentmatchOf p = registeredOf p \ wrongteamOf p ∧
      ∀ n, n ∈ currentmatchOf p ↔ n ∈ registeredOf p ∧ n ∉ wrongteamOf p := by
  refine ⟨rfl, fun n => ?_⟩
  simp [currentmatchOf, Finset.mem_sdiff]

namespace GW2MistsGuild

theorem profile_cached {g : GW2MistsGuild} {p : ProfileData}
    (h : g.c_profile = some p) : profile g = (p, g) := by
  simp [profile, h]

theorem profile_populates (g : GW2MistsGuild) :
    (profile g).2.c_profile = some (profile g).1 := by
  cases h : g.c_profile <;> simp [profile, h]

theorem members_cached {g : GW2MistsGuild} {s : Finset String}
    (h : g.c_members = some s) : members g = (s, g) := by
  simp [members, h]

theorem members_populates (g : GW2MistsGuild) :
    (members g).2.c_members = some (members g).1 := by
  cases h : g.c_members <;> simp [members, h]

theorem unregistered_members_cached {g : GW2MistsGuild} {s : Finset String}
    (h : g.c_unregistered = some s) : unregistered_members g = (s, g) := by
  simp [unregistered_members, h]

theorem unregistered_members_populates (g : GW2MistsGuild) :
    (unregistered_members g).2.c_unregistered = some (unregistered_members g).1 := by
  cases h : g.c_unregistered <;> simp [unregistered_members, h]

theorem registered_members_cached {g : GW2MistsGuild} {s : Finset String}
    (h : g.c_registered = some s) : registered_members g = (s, g) := by
  simp [registered_members, h]

theorem registered_members_populates (g : GW2MistsGuild) :
    (registered_members g).2.c_registered = some (registered_members g).1 := by
  cases h : g.c_registered <;> simp [registered_members, h]

theorem team_id_cached {g : GW2MistsGuild} {t : Int}
    (h : g.c_team_id = some t) : team_id g = (t, g) := by
  simp [team_id, h]

theorem team_id_populates (g : GW2MistsGuild) :
    (team_id g).2.c_team_id = some (team_id g).1 := by
  cases h : g.c_team_id <;> simp [team_id, h]

theorem wrongteam_members_cached {g : GW2MistsGuild} {s : Finset String}
    (h : g.c_wrongteam = some s) : wrongteam_members g = (s, g) := by
  simp [wrongteam_members, h]

theorem wrongteam_members_populates (g : GW2MistsGuild) :
    (wrongteam_members g).2.c_wrongteam = some (wrongteam_members g).1 := by
  cases h : g.c_wrongteam <;> simp [wrongteam_members, h]

theorem currentmatch_members_cached {g : GW2MistsGuild} {s : Finset String}
    (h : g.c_currentmatch = some s) : currentmatch_members g = (s, g) := by
  simp [currentmatch_members, h]

theorem currentmatch_members_populates (g : GW2MistsGuild) :
    (currentmatch_members g).2.c_currentmatch = some (currentmatch_members g).1 := by
  cases h : g.c_currentmatch <;> simp [currentmatch_members, h]

theorem members_profiles_cached {g : GW2MistsGuild}
    {m : List (String × (String → Int))}
    (h : g.c_members_profiles = some m) : members_profiles g = (m, g) := by
  simp [members_profiles, h]

theorem members_profiles_populates (g : GW2MistsGuild) :
    (members_profiles g).2.c_members_profiles = some (members_profiles g).1 := by
  cases h : g.c_members_profiles <;> simp [members_profiles, h]

theorem inactive_members_cached {g : GW2MistsGuild} {m : List (String × Int)}
    (h : g.c_inactive = some m) : inactive_members g = (m, g) := by
  simp [inactive_members, h]

theorem inactive_members_populates (g : GW2MistsGuild) :
    (inactive_members g).2.c_inactive = some (inactive_members g).1 := by
  cases h : g.c_inactive <;> simp [inactive_members, h]

theorem top_week_cached {g : GW2MistsGuild}
    {m : List (String × List (String × Int))}
    (h : g.c_top_week = some m) : top_week g = (m, g) := by
  simp [top_week, h]

theorem top_week_populates (g : GW2MistsGuild) :
    (top_week g).2.c_top_week = some (top_week g).1 := by
  cases h : g.c_top_week <;> simp [top_week, h]

theorem amember_profiles_fail {fetch : String → Except String (String → Int)}
    {names : List String} {n : String} {e : String}
    (hn : n ∈ names) (hf : fetch n = .error e) :
    ∃ e2, amember_profiles fetch names = .error e2 := by
  induction names with
  | nil => cases hn
  | cons m ns ih =>
    rcases List.mem_cons.mp hn with rfl | hmem
    · exact ⟨e, by simp [amember_profiles, amember_profile, hf, Except.map]⟩
    · cases hm : amember_profile fetch m with
      | error e1 => exact ⟨e1, by simp [amember_profiles, hm]⟩
      | ok p =>
        obtain ⟨e2, h2⟩ := ih hmem
        exact ⟨e2, by simp [amember_profiles, hm, h2]⟩

end GW2MistsGuild

open GW2MistsGuild in
/-- Claim C4: on any `GW2MISTS_GUILD` instance, calling any of the ten
derived accessors a second time returns exactly the value and state the
first call produced: the value is equal, the cache is unchanged, and in
particular the fetch counter does not move, so no second network fetch
is issued and every field is computed at most once per instance. -/
theorem accessors_idempotent_no_refetch (g : GW2MistsGuild) :
    profile (profile g).2 = profile g ∧
    members (members g).2 = members g ∧
    registered_members (registered_members g).2 = registered_members g ∧
    unregistered_members (unregistered_members g).2 = unregistered_members g ∧
    wrongteam_members (wrongteam_members g).2 = wrongteam_members g ∧
    currentmatch_members (currentmatch_members g).2 = currentmatch_members g ∧
    team_id (team_id g).2 = team_id g ∧
    members_profiles (members_profiles g).2 = members_profiles g ∧
    inactive_members (inactive_members g).2 = inactive_members g ∧
    top_week (top_week g).2 = top_week g :=
  ⟨profile_cached (profile_populates g),
    members_cached (members_populates g),
    registered_members_cached (registered_members_populates g),
    unregistered_members_cached (unregistered_members_populates g),
    wrongteam_members_cached (wrongteam_members_populates g),
    currentmatch_members_cached (currentmatch_members_populates g),
    team_id_cached (team_id_populates g),
    members_profiles_cached (members_profiles_populates g),
    inactive_members_cached (inactive_members_populates g),
    top_week_cached (top_week_populates g)⟩

open GW2MISTS_GUILD in
/-- Claim C9: for every member-profiles map and statistic key, the
`_sorted_members` derivation used by `top_week` returns at most 10
entries (`TOP_STATS_MEMBERS = 10`), sorted in descending order of the
chosen statistic; entries with equal statistic value appear in the
original fetch order of the map (stability: for every value, the tied
entries of the output form an initial segment, in input order, of the
tied entries of the input); and an empty map yields an empty list. -/
theorem sorted_members_spec (profiles : List (String × (String → Int)))
    (stat : String) :
    (sorted_members profiles stat).length ≤ 10 ∧
      (sorted_members profiles stat).Pairwise (fun a b => b.2 ≤ a.2) ∧
      (∀ v : Int,
        (sorted_members profiles stat).filter (fun x => x.2 == v) <+:
          (profiles.map (fun np => (np.1, np.2 stat))).filter (fun x => x.2 == v)) ∧
      sorted_members [] stat = [] := by
  have htrans : ∀ a b c : String × Int,
      (decide (b.2 ≤ a.2)) = true → (decide (c.2 ≤ b.2)) = true →
        (decide (c.2 ≤ a.2)) = true := by
    intro a b c h1 h2
    simp only [decide_eq_true_eq] at h1 h2 ⊢
    omega
  have htotal : ∀ a b : String × Int,
      ((decide (b.2 ≤ a.2)) || (decide (a.2 ≤ b.2))) = true := by
    intro a b
    simp only [Bool.or_eq_true, decide_eq_true_eq]
    omega
  refine ⟨?_, ?_, ?_, ?_⟩
  · simp only [sorted_members, TOP_STATS_MEMBERS, List.length_take]
    omega
  · have hsorted := List.sorted_mergeSort htrans htotal
      (profiles.map (fun np => (np.1, np.2 stat)))
    have htake := List.Pairwise.sublist
      (List.take_sublist TOP_STATS_MEMBERS _) hsorted
    simpa only [sorted_members, decide_eq_true_eq] using htake
  · intro v
    have hc : ((profiles.map (fun np => (np.1, np.2 stat))).filter
        (fun x => x.2 == v)).Pairwise
        (fun a b => (decide (b.2 ≤ a.2)) = true) := by
      refine List.pairwise_of_forall_mem_list ?_
      intro a ha b hb
      simp only [List.mem_filter, beq_iff_eq] at ha hb
      simp [ha.2, hb.2]
    have hsub := List.sublist_mergeSort htrans htotal hc
      (List.filter_sublist (profiles.map (fun np => (np.1, np.2 stat))))
    have hsub2 := hsub.filter (fun x => x.2 == v)
    simp only [List.filter_filter, Bool.and_self] at hsub2
    have hperm := (List.mergeSort_perm
      (profiles.map (fun np => (np.1, np.2 stat)))
      (fun a b => decide (b.2 ≤ a.2))).filter (fun x => x.2 == v)
    have heq := hsub2.eq_of_length hperm.length_eq.symm
    have htp := List.take_prefix TOP_STATS_MEMBERS
      ((profiles.map (fun np => (np.1, np.2 stat))).mergeSort
        (fun a b => decide (b.2 ≤ a.2)))
    have hpre := htp.filter (fun x => x.2 == v)
    rw [← heq] at hpre
    simpa only [sorted_members] using hpre
  · simp [sorted_members]

open GW2MistsGuild in
/-- Claim C7: if any member's profile fetch in the batch fails, the
whole `members_profiles` operation fails: no name-keyed map (partial or
otherwise) is returned to the caller, and the member-profiles cache
slot stays unpopulated, so the failure is never cached as a success. -/
theorem members_profiles_batch_failure
    (fetch : String → Except String (String → Int)) (names : List String)
    (n : String) (e : String) (hn : n ∈ names) (hf : fetch n = .error e) :
    (∀ m, (members_profiles_try fetch names none).1 ≠ .ok m) ∧
      (members_profiles_try fetch names none).2 = none := by
  obtain ⟨e2, h2⟩ := amember_profiles_fail hn hf
  constructor
  · intro m
    simp [members_profiles_try, h2]
  · simp [members_profiles_try, h2]

/-- Witness for C7: the spec's §8 scenario of four fetches with one
injected failure at position 2. -/
theorem members_profiles_batch_failure_witness :
    "B2" ∈ ["A1", "B2", "C3", "D4"] ∧
      injectedFetch "B2" = Except.error "injected failure" ∧
      ((∀ m, (GW2MistsGuild.members_profiles_try injectedFetch
          ["A1", "B2", "C3", "D4"] none).1 ≠ Except.ok m) ∧
        (GW2MistsGuild.members_profiles_try injectedFetch
          ["A1", "B2", "C3", "D4"] none).2 = none) :=
  ⟨by decide, by rfl,
    members_profiles_batch_failure _ _ "B2" "injected failure" (by decide) (by rfl)⟩

theorem substr_app_right {l t : List Char} (s : List Char) (h : l <:+: t) :
    l <:+: s ++ t := by
  obtain ⟨u, v, rfl⟩ := h
  exact ⟨s ++ u, v, by simp⟩

theorem substr_app_left {l t : List Char} (s : List Char) (h : l <:+: t) :
    l <:+: t ++ s := by
  obtain ⟨u, v, rfl⟩ := h
  exact ⟨u, v ++ s, by simp⟩

theorem substr_joinSep {p : String} {l : List String} (sep : String)
    (hp : p ∈ l) : p.data <:+: (joinSep sep l).data := by
  induction l with
  | nil => cases hp
  | cons x xs ih =>
    cases xs with
    | nil =>
      rcases List.mem_singleton.mp hp with rfl
      exact ⟨[], [], by simp [joinSep]⟩
    | cons y ys =>
      rcases List.mem_cons.mp hp with rfl | hmem
      · refine ⟨[], (sep ++ joinSep sep (y :: ys)).data, ?_⟩
        simp [joinSep, String.data_append]
      · have h1 := ih hmem
        have h2 : (joinSep sep (x :: y :: ys)).data
            = (x ++ sep).data ++ (joinSep sep (y :: ys)).data := by
          simp [joinSep, String.data_append]
        rw [h2]
        exact substr_app_right _ h1

theorem lookupHeader_setHeader (hs : List (String × String)) (k v : String) :
    lookupHeader (setHeader hs k v) k = some v := by
  induction hs with
  | nil => simp [setHeader, lookupHeader, List.find?]
  | cons kv rest ih =>
    by_cases hk : kv.1 = k
    · simp [setHeader, hk, lookupHeader, List.find?]
    · simpa [setHeader, hk, lookupHeader, List.find?] using ih

/-- Claim C8: for every token whose resolved permission list lacks the
guilds scope, `GW2_GUILD` construction fails immediately with the
`ValueError` message, that message names the missing guilds scope and
contains every scope the token does carry, and the only request issued
is the token introspection — no guild-scoped (`/v2/guild/...`) request
is attempted. -/
theorem init_missing_guilds_scope (name gid api_key : String)
    (tokenPerms : String → List String) (w : World)
    (h : "guilds" ∉ tokenPerms api_key) :
    (GW2_GUILD_init name gid api_key tokenPerms w).1
        = Except.error (missingGuildsMsg name (tokenPerms api_key)) ∧
      "guilds".data <:+: (missingGuildsMsg name (tokenPerms api_key)).data ∧
      (∀ p ∈ tokenPerms api_key,
        p.data <:+: (missingGuildsMsg name (tokenPerms api_key)).data) ∧
      (GW2_GUILD_init name gid api_key tokenPerms w).2.2 = ["/v2/tokeninfo"] ∧
      (∀ u ∈ (GW2_GUILD_init name gid api_key tokenPerms w).2.2,
        ¬ ("/v2/guild".data <:+: u.data)) := by
  have hmsg : (missingGuildsMsg name (tokenPerms api_key)).data
      = ("the api key provided for guild '".data ++ name.data
          ++ "' doesn't have 'guilds' permission among ".data)
        ++ (joinSep ", " (tokenPerms api_key)).data := by
    simp [missingGuildsMsg, String.data_append]
  refine ⟨?_, ?_, ?_, ?_, ?_⟩
  · simp [GW2_GUILD_init, h]
  · rw [hmsg]
    refine substr_app_left _ ?_
    refine substr_app_right ("the api key provided for guild '".data) ?_
    have hlit : "guilds".data <:+:
        ("' doesn't have 'guilds' permission among ").data := by decide
    exact substr_app_right _ hlit
  · intro p hp
    rw [hmsg]
    exact substr_app_right _ (substr_joinSep ", " hp)
  · simp [GW2_GUILD_init, h]
  · intro u hu
    simp [GW2_GUILD_init, h] at hu
    subst hu
    decide

/-- Witness for C8 at the spec's §8 scenario (a token carrying only the
characters scope). -/
theorem init_missing_guilds_scope_witness :
    "guilds" ∉ (fun _ : String => ["characters"]) "KEY" ∧
      ((GW2_GUILD_init "myguild" "42" "KEY" (fun _ => ["characters"])
          initialWorld).1
        = Except.error (missingGuildsMsg "myguild" ["characters"]) ∧
      "guilds".data <:+: (missingGuildsMsg "myguild" ["characters"]).data ∧
      (∀ p ∈ (fun _ : String => ["characters"]) "KEY",
        p.data <:+: (missingGuildsMsg "myguild" ["characters"]).data) ∧
      (GW2_GUILD_init "myguild" "42" "KEY" (fun _ => ["characters"])
          initialWorld).2.2 = ["/v2/tokeninfo"] ∧
      (∀ u ∈ (GW2_GUILD_init "myguild" "42" "KEY" (fun _ => ["characters"])
          initialWorld).2.2,
        ¬ ("/v2/guild".data <:+: u.data))) :=
  ⟨by decide,
    init_missing_guilds_scope "myguild" "42" "KEY" (fun _ => ["characters"])
      initialWorld (by decide)⟩

/-- Counterexample to claim C5: constructing a second `GW2_GUILD` with a
different API token overwrites the authorization header in the single
class-level header dict that the first instance's requests read, so the
first object's request headers do not stay unchanged. -/
theorem shared_headers_mutated_by_second_construction :
    lookupHeader cexWorld1.gw2_headers "authorization"
        = some "Bearer KEY1" ∧
      lookupHeader cexWorld2.gw2_headers "authorization"
        = some "Bearer KEY2" ∧
      lookupHeader cexWorld2.gw2_headers "authorization"
        ≠ lookupHeader cexWorld1.gw2_headers "authorization" := by
  decide

/-- Amended claim C5: the per-instance caches of two independently
constructed `GW2_GUILD` objects are separate (each instance gets its own
fresh `None` slots), but the request-header dict is class-level shared
state: constructing the second object rewrites the shared authorization
header to the second bearer token, so with distinct tokens the header
dict used by the first object no longer holds its token. -/
theorem second_construction_overwrites_shared_header
    (n1 g1 k1 n2 g2 k2 : String) (tokenPerms : String → List String)
    (w : World) (h1 : "guilds" ∈ tokenPerms k1)
    (h2 : "guilds" ∈ tokenPerms k2) (hk : k1 ≠ k2) :
    (GW2_GUILD_init n1 g1 k1 tokenPerms w).1
        = Except.ok ⟨n1, g1, none, none, none, none, none⟩ ∧
      (GW2_GUILD_init n2 g2 k2 tokenPerms
          (GW2_GUILD_init n1 g1 k1 tokenPerms w).2.1).1
        = Except.ok ⟨n2, g2, none, none, none, none, none⟩ ∧
      lookupHeader (GW2_GUILD_init n1 g1 k1 tokenPerms w).2.1.gw2_headers
          "authorization" = some ("Bearer " ++ k1) ∧
      lookupHeader (GW2_GUILD_init n2 g2 k2 tokenPerms
          (GW2_GUILD_init n1 g1 k1 tokenPerms w).2.1).2.1.gw2_headers
          "authorization" = some ("Bearer " ++ k2) ∧
      lookupHeader (GW2_GUILD_init n2 g2 k2 tokenPerms
          (GW2_GUILD_init n1 g1 k1 tokenPerms w).2.1).2.1.gw2_headers
          "authorization"
        ≠ lookupHeader (GW2_GUILD_init n1 g1 k1 tokenPerms w).2.1.gw2_headers
          "authorization" := by
  have hb : ("Bearer " ++ k2) ≠ ("Bearer " ++ k1) := by
    intro he
    apply hk
    have := congrArg String.data he
    simp only [String.data_append] at this
    exact (String.ext (List.append_cancel_left this)).symm
  refine ⟨?_, ?_, ?_, ?_, ?_⟩
  · simp [GW2_GUILD_init, h1]
  · simp [GW2_GUILD_init, h1, h2]
  · simp [GW2_GUILD_init, h1, lookupHeader_setHeader]
  · simp [GW2_GUILD_init, h1, h2, lookupHeader_setHeader]
  · simp [GW2_GUILD_init, h1, h2, lookupHeader_setHeader, hb]

/-- Witness for the amended C5 at concrete guilds and distinct keys. -/
theorem second_construction_overwrites_shared_header_witness :
    "guilds" ∈ allPermsFn "KEY1" ∧ "guilds" ∈ allPermsFn "KEY2" ∧
      "KEY1" ≠ "KEY2" ∧
      lookupHeader (GW2_GUILD_init "alliance" "22" "KEY2" allPermsFn
          (GW2_GUILD_init "guild" "11" "KEY1" allPermsFn
            initialWorld).2.1).2.1.gw2_headers "authorization"
        ≠ lookupHeader (GW2_GUILD_init "guild" "11" "KEY1" allPermsFn
            initialWorld).2.1.gw2_headers "authorization" :=
  ⟨by decide, by decide, by decide,
    (second_construction_overwrites_shared_header "guild" "11" "KEY1"
      "alliance" "22" "KEY2" allPermsFn initialWorld (by decide) (by decide)
      (by decide)).2.2.2.2⟩

theorem report_guild_gw2mists_false (lookup : String → ProfileData)
    (g : String) :
    report_guild_gw2mists lookup false g =
      Except.ok (if (lookup g).display_roster = false
        then [⟨g, true, ∅, ∅⟩]
        else [⟨g, false, wrongteamOf (lookup g), unregisteredOf (lookup g)⟩]) := by
  rw [report_guild_gw2mists]
  by_cases h : (lookup g).display_roster = false <;> simp [h]

theorem reportLoop_all_ok (f : String → Except String (List SubReport))
    (r : String → List SubReport) (gs : List String)
    (h : ∀ g ∈ gs, f g = Except.ok (r g)) :
    reportLoop f gs = Except.ok ((gs.map r).flatten) := by
  induction gs with
  | nil => simp [reportLoop]
  | cons g gs ih =>
    have hg := h g (by simp)
    have hrest := ih (fun x hx => h x (List.mem_cons_of_mem _ hx))
    simp [reportLoop, hg, hrest]

/-- Claim C10: when invoked on an alliance guild, the recursive calls
for the sub-guilds pass the `alliance` flag unset, so each sub-guild is
reported non-recursively (whatever its own alliance flag or sub-guild
list says): the recursion has depth exactly one and terminates on every
input, including alliance rosters that reference each other
cyclically. -/
theorem alliance_recursion_depth_one (lookup : String → ProfileData)
    (name : String) (hvis : (lookup name).display_roster = true)
    (hall : (lookup name).is_alliance = true) :
    report_guild_gw2mists lookup true name =
      Except.ok
        (⟨name, false, wrongteamOf (lookup name), unregisteredOf (lookup name)⟩ ::
          ((lookup name).alliance_guilds.map (fun g =>
            if (lookup g).display_roster = false
              then [⟨g, true, ∅, ∅⟩]
              else [⟨g, false, wrongteamOf (lookup g),
                unregisteredOf (lookup g)⟩])).flatten) := by
  have hloop := reportLoop_all_ok
    (fun g => report_guild_gw2mists lookup false g)
    (fun g =>
      if (lookup g).display_roster = false
        then [⟨g, true, ∅, ∅⟩]
        else [⟨g, false, wrongteamOf (lookup g), unregisteredOf (lookup g)⟩])
    (lookup name).alliance_guilds
    (fun g _ => report_guild_gw2mists_false lookup g)
  rw [report_guild_gw2mists]
  simp [hvis, hall, hloop]

/-- Witness for C10: the alliance report of the cyclic pair terminates
with a depth-one result. -/
theorem alliance_recursion_depth_one_witness :
    (cycLookup "A").display_roster = true ∧
      (cycLookup "A").is_alliance = true ∧
      report_guild_gw2mists cycLookup true "A" =
        Except.ok
          (⟨"A", false, wrongteamOf (cycLookup "A"),
              unregisteredOf (cycLookup "A")⟩ ::
            ((cycLookup "A").alliance_guilds.map (fun g =>
              if (cycLookup g).display_roster = false
                then [⟨g, true, ∅, ∅⟩]
                else [⟨g, false, wrongteamOf (cycLookup g),
                  unregisteredOf (cycLookup g)⟩])).flatten) :=
  ⟨by decide, by decide,
    alliance_recursion_depth_one cycLookup "A" (by decide) (by decide)⟩

/-- Counterexample to claim C6: with the fetched profile's
roster-visibility flag false, accessing `unregistered_members` raises
no error of any kind — it returns ordinary member data (the set derived
from whatever member list the profile carries). -/
theorem unregistered_members_ignores_roster_visibility :
    hiddenProfile.display_roster = false ∧
      (GW2MistsGuild.unregistered_members hiddenGuild).1 = {"B"} := by
  constructor
  · rfl
  · decide

/-- Amended claim C6: the `unregistered_members` accessor performs no
visibility check and returns the set derived from the fetched member
list regardless of the flag; the roster-visibility condition is instead
checked by `report_guild_gw2mists` before any member derivation — when
`display_roster` is false it logs a warning and returns normally (a
skip outcome, not an exception), so sibling guild reports in the same
run still complete. -/
theorem roster_visibility_checked_in_report (lookup : String → ProfileData)
    (al : Bool) (name : String) (netm : Nat → String → String → Int)
    (h : (lookup name).display_roster = false) :
    report_guild_gw2mists lookup al name = Except.ok [⟨name, true, ∅, ∅⟩] ∧
      (GW2MistsGuild.unregistered_members
          (GW2MistsGuild.mk_guild name (fun _ => lookup name) netm)).1
        = unregisteredOf (lookup name) := by
  constructor
  · rw [report_guild_gw2mists]
    simp [h]
  · simp [GW2MistsGuild.unregistered_members, GW2MistsGuild.mk_guild,
      GW2MistsGuild.profile]

/-- Witness for the amended C6 at the roster-hidden profile. -/
theorem roster_visibility_checked_in_report_witness :
    ((fun _ : String => hiddenProfile) "G").display_roster = false ∧
      (report_guild_gw2mists (fun _ => hiddenProfile) false "G"
          = Except.ok [⟨"G", true, ∅, ∅⟩] ∧
        (GW2MistsGuild.unregistered_members
            (GW2MistsGuild.mk_guild "G" (fun _ => hiddenProfile)
              (fun _ _ _ => 0))).1
          = unregisteredOf ((fun _ : String => hiddenProfile) "G")) :=
  ⟨by decide,
    roster_visibility_checked_in_report (fun _ => hiddenProfile) false "G"
      (fun _ _ _ => 0) (by decide)⟩
